import Mathlib

/-!
Verification development for the VoiceWise backend.

Shallow embedding of the parts of the backend that the specification's
claims speak about:

* `SimilarityMath` — the cosine-distance / similarity primitives of
  `app/services/rag_service.py` (`RAGService._calculate_cosine_distance`
  and the `similarity = max(0, 1 - distance/2)` conversion in
  `RAGService._retrieve_similar_calls`).
* aggregate statistics — `RAGService._retrieve_historical_stats`.
* anomaly scoring — `app/services/anomaly_service.py`
  (`AnomalyService.calculate_anomaly_score` and its factor functions).
* chart-list caching — `app/services/cache_service.py`
  (`CacheService.get_chart_calls`).
* live-call turn processing — `app/services/call_service.py`
  (`CallService.check_prefix_similarity`,
  `CallService.process_live_call_conversation_turn`).

Python floats are modelled as real numbers; quantities the code computes
from exact inputs without transcendental functions (counts, averages of
rationals, thresholds) are modelled in `ℚ` and coerced into `ℝ` where the
code feeds them onward. `None` becomes `Option.none`; values filtered out
by `isinstance` checks behave exactly like missing values and are
modelled as absent.
-/

namespace VoiceWise

open scoped BigOperators

section SimilarityMathDefs

/-- Dot product of two same-dimension vectors, `np.dot(vec1, vec2)`. -/
def dotProduct {n : ℕ} (v w : Fin n → ℝ) : ℝ := ∑ i, v i * w i

/-- Euclidean norm, `np.linalg.norm(vec)`. -/
noncomputable def vecNorm {n : ℕ} (v : Fin n → ℝ) : ℝ :=
  Real.sqrt (∑ i, v i ^ 2)

/-- Embedding of `RAGService._calculate_cosine_distance`: returns `2.0`
when either vector has zero norm, otherwise `1 - dot / (norm1 * norm2)`. -/
noncomputable def cosineDistance {n : ℕ} (v w : Fin n → ℝ) : ℝ :=
  if vecNorm v = 0 ∨ vecNorm w = 0 then 2
  else 1 - dotProduct v w / (vecNorm v * vecNorm w)

/-- The distance-to-similarity conversion used in
`RAGService._retrieve_similar_calls`: `similarity = max(0, 1 - (distance / 2))`. -/
noncomputable def similarityOfDistance (d : ℝ) : ℝ := max 0 (1 - d / 2)

end SimilarityMathDefs

section AnomalyModel

/-- One entry of `rag_context.similar_calls` as built by
`RAGService._retrieve_similar_calls` and consumed by `AnomalyService`.
Dictionary entries that are `None` (or fail the `isinstance` checks, which
the factor functions treat identically to missing) are `none`. -/
structure SimilarCall where
  rating : Option ℚ
  sentiment : Option String
  confidence : Option ℚ
  pain_points : List String
  opportunities : List String
  churn_score : Option ℚ
  revenue_interest_score : Option ℚ
deriving DecidableEq

/-- The extracted-insights dictionary fields read by
`AnomalyService.calculate_anomaly_score`. A missing or `None` list field
behaves exactly like `[]` under Python truthiness, so list fields are plain
lists. -/
structure ExtractedInsights where
  gym_rating : Option ℚ
  sentiment : Option String
  confidence : Option ℚ
  churn_score : Option ℚ
  revenue_interest_score : Option ℚ
  pain_points : List String
  opportunities : List String
deriving DecidableEq

/-- The keys of the `historical_stats` dictionary built by
`RAGService._retrieve_historical_stats` that the anomaly scorer and the
claims read; an all-`none` value models the empty dictionary `{}`.
(The sentiment-distribution and top-pain-point/opportunity keys are not
consumed by any claim and are omitted.) -/
structure HistoricalStats where
  avg_rating : Option ℚ
  std_rating : Option ℝ
  avg_confidence : Option ℚ
  avg_churn_score : Option ℚ
  avg_revenue_interest_score : Option ℚ
  total_calls : Option ℕ

/-- The empty stats dictionary `{}`. -/
def emptyStats : HistoricalStats :=
  ⟨none, none, none, none, none, none⟩

/-- The `RAGContext` attributes consumed by the anomaly scorer. -/
structure RAGContext where
  similar_calls : List SimilarCall
  historical_stats : HistoricalStats

end AnomalyModel

section SentimentConflictDefs

/-- Expected sentiment from a rating, as in
`AnomalyService._calculate_sentiment_conflict`. -/
def expectedSentiment (rating : ℚ) : String :=
  if 8 ≤ rating then "positive"
  else if rating ≤ 4 then "negative"
  else "neutral"

/-- Embedding of `AnomalyService._has_rating_sentiment_conflict`. -/
def hasRatingSentimentConflict (rating : ℚ) (sentiment : String) : Bool :=
  if 8 ≤ rating then decide (sentiment ≠ "positive")
  else if rating ≤ 4 then decide (sentiment ≠ "negative")
  else decide (sentiment ≠ "neutral" ∧ sentiment ≠ "positive")

/-- The per-neighbor test inside the `conflicts_in_similar` sum: the
neighbor needs a numeric rating, a truthy (non-empty) sentiment string,
and `_has_rating_sentiment_conflict` must hold. -/
def neighborHasConflict (c : SimilarCall) : Bool :=
  match c.rating, c.sentiment with
  | some r, some s => !s.isEmpty && hasRatingSentimentConflict r s
  | _, _ => false

/-- The `conflict_rate` computed over the similar-calls list. -/
def conflictRate (similar : List SimilarCall) : ℚ :=
  ((similar.filter neighborHasConflict).length : ℚ) / (similar.length : ℚ)

/-- Embedding of `AnomalyService._calculate_sentiment_conflict`. -/
def sentimentConflict (rating : Option ℚ) (sentiment : Option String)
    (similar : List SimilarCall) : Option ℚ :=
  match rating, sentiment with
  | some r, some s =>
    if s ≠ expectedSentiment r then
      match similar with
      | [] => some (1 / 2)
      | _ :: _ =>
        if conflictRate similar < 1 / 5 then some (7 / 10)
        else if conflictRate similar < 1 / 2 then some (2 / 5)
        else some (1 / 5)
    else some 0
  | _, _ => none

/-- The specification's reading of the C3 neighbor test: a neighbor
"shows the same conflict" as the current call when it exhibits the same
expected-versus-actual sentiment conflict pattern. Follows the spec
wording; the code instead counts neighbors with any rating-sentiment
conflict. -/
def showsSameConflict (r : ℚ) (s : String) (c : SimilarCall) : Bool :=
  match c.rating, c.sentiment with
  | some r2, some s2 =>
    decide (expectedSentiment r2 = expectedSentiment r ∧ s2 = s ∧
      s2 ≠ expectedSentiment r2)
  | _, _ => false

end SentimentConflictDefs

section PatternDeviationDefs

/-- The valid neighbor sentiments collected in
`AnomalyService._calculate_pattern_deviation` (truthy strings only). -/
def validSentiments (similar : List SimilarCall) : List String :=
  similar.filterMap fun c =>
    match c.sentiment with
    | some t => if t.isEmpty then none else some t
    | none => none

/-- Model of Python's `max(set(similar_sentiments), key=similar_sentiments.count)`:
an element of maximal count. Python iterates the set in an unspecified
order, so ties are broken arbitrarily there; this model fixes one
deterministic tie-break. No claim depends on the tie-break. -/
def mostCommonOf (l : List String) : String :=
  l.foldl (fun best x => if l.count best < l.count x then x else best) (l.headD "")

/-- The sentiment sub-signal of `_calculate_pattern_deviation`: appended
only when the extracted sentiment is truthy, some neighbor sentiment is
valid, and the extracted sentiment differs from the most common one;
its value is `1 - frequency`. -/
def sentimentSubsignal (sentiment : Option String)
    (similar : List SimilarCall) : Option ℚ :=
  match sentiment with
  | none => none
  | some s =>
    if s.isEmpty then none
    else if (validSentiments similar).isEmpty then none
    else if s ≠ mostCommonOf (validSentiments similar) then
      some (1 - ((validSentiments similar).count s : ℚ) /
        ((validSentiments similar).length : ℚ))
    else none

/-- Normalization `str(p).lower().strip()` applied to the truthy entries of
a Python string list. -/
def normalizedEntries (l : List String) : List String :=
  l.filterMap fun p => if p.isEmpty then none else some p.toLower.trim

/-- The pain-points sub-signal of `_calculate_pattern_deviation`:
the proportion of extracted pain points not seen in any neighbor. -/
def painSubsignal (ps : List String) (similar : List SimilarCall) : Option ℚ :=
  match ps with
  | [] => none
  | _ :: _ =>
    let extracted := (normalizedEntries ps).toFinset
    let allSimilar :=
      (similar.foldl (fun acc c => acc ++ normalizedEntries c.pain_points) []).toFinset
    if allSimilar ≠ ∅ ∧ extracted ≠ ∅ then
      some (((extracted \ allSimilar).card : ℚ) / (extracted.card : ℚ))
    else none

/-- The opportunities sub-signal of `_calculate_pattern_deviation`. -/
def oppSubsignal (os : List String) (similar : List SimilarCall) : Option ℚ :=
  match os with
  | [] => none
  | _ :: _ =>
    let extracted := (normalizedEntries os).toFinset
    let allSimilar :=
      (similar.foldl (fun acc c => acc ++ normalizedEntries c.opportunities) []).toFinset
    if allSimilar ≠ ∅ ∧ extracted ≠ ∅ then
      some (((extracted \ allSimilar).card : ℚ) / (extracted.card : ℚ))
    else none

/-- Embedding of `AnomalyService._calculate_pattern_deviation`: requires
at least two similar calls, then averages whichever of the three
sub-signals were computed, `none` if none were. -/
def patternDeviation (insights : ExtractedInsights)
    (similar : List SimilarCall) : Option ℚ :=
  if similar.length < 2 then none
  else
    match (sentimentSubsignal insights.sentiment similar).toList ++
          (painSubsignal insights.pain_points similar).toList ++
          (oppSubsignal insights.opportunities similar).toList with
    | [] => none
    | d :: ds => some ((d :: ds).sum / ((d :: ds).length : ℚ))

end PatternDeviationDefs

section ZScoreFactorDefs

/-- Mean of a list of rationals, `sum(xs) / len(xs)`. -/
def listMean (xs : List ℚ) : ℚ := xs.sum / (xs.length : ℚ)

/-- Embedding of `np.std(xs)`: the population (ddof 0) standard
deviation, the square root of the mean squared deviation from the mean. -/
noncomputable def npStd (xs : List ℚ) : ℝ :=
  Real.sqrt ((xs.map fun x => ((x : ℝ) - (listMean xs : ℝ)) ^ 2).sum /
    (xs.length : ℝ))

/-- The logistic transform `1 / (1 + exp(-x))` used by the Z-score factors. -/
noncomputable def sigmoid (x : ℝ) : ℝ := 1 / (1 + Real.exp (-x))

/-- The qualifying neighbor ratings collected by
`AnomalyService._calculate_rating_anomaly`. -/
def qualifyingRatings (similar : List SimilarCall) : List ℚ :=
  similar.filterMap SimilarCall.rating

/-- The qualifying neighbor confidences collected by
`AnomalyService._calculate_confidence_anomaly`. -/
def qualifyingConfidences (similar : List SimilarCall) : List ℚ :=
  similar.filterMap SimilarCall.confidence

/-- The qualifying neighbor churn scores collected by
`AnomalyService._calculate_churn_score_anomaly`. -/
def qualifyingChurnScores (similar : List SimilarCall) : List ℚ :=
  similar.filterMap SimilarCall.churn_score

/-- The qualifying neighbor revenue scores collected by
`AnomalyService._calculate_revenue_score_anomaly`. -/
def qualifyingRevenueScores (similar : List SimilarCall) : List ℚ :=
  similar.filterMap SimilarCall.revenue_interest_score

/-- The historical-stats branch of `_calculate_rating_anomaly`: a Z-score
against the tenant-wide mean/std pair with threshold 2.0; `none` when
the aggregate mean or std is missing or the std is not positive. -/
noncomputable def ratingFromStats (rating : ℚ) (stats : HistoricalStats) :
    Option ℝ :=
  match stats.avg_rating, stats.std_rating with
  | some avg, some std =>
    if 0 < std then
      some (sigmoid (max 0 (|((rating : ℝ) - (avg : ℝ)) / std| - 2)))
    else none
  | _, _ => none

/-- Embedding of `AnomalyService._calculate_rating_anomaly`: prefer the
similar-calls sample when it has at least 3 qualifying ratings with
positive `np.std`, else fall back to the tenant-wide aggregate pair. -/
noncomputable def ratingAnomaly (rating : Option ℚ) (stats : HistoricalStats)
    (similar : List SimilarCall) : Option ℝ :=
  match rating with
  | none => none
  | some r =>
    if 3 ≤ (qualifyingRatings similar).length ∧
        0 < npStd (qualifyingRatings similar) then
      some (sigmoid (max 0
        (|((r : ℝ) - (listMean (qualifyingRatings similar) : ℝ)) /
          npStd (qualifyingRatings similar)| - 1.35)))
    else ratingFromStats r stats

/-- The historical-stats branch of `_calculate_confidence_anomaly`: an
absolute-deviation test against the aggregate mean confidence
(`deviation > 0.4` gives `min(1, deviation / 0.5)`, else the factor is
unavailable). -/
noncomputable def confidenceFromStats (confidence : ℚ)
    (stats : HistoricalStats) : Option ℝ :=
  match stats.avg_confidence with
  | some avg =>
    if 2 / 5 < |confidence - avg| then
      some ((min 1 (|confidence - avg| / (1 / 2)) : ℚ) : ℝ)
    else none
  | none => none

/-- Embedding of `AnomalyService._calculate_confidence_anomaly`: prefer
the similar-calls sample when it has at least 2 qualifying confidences
with positive `np.std`, else the absolute-deviation fallback. -/
noncomputable def confidenceAnomaly (confidence : Option ℚ)
    (stats : HistoricalStats) (similar : List SimilarCall) : Option ℝ :=
  match confidence with
  | none => none
  | some c =>
    if 2 ≤ (qualifyingConfidences similar).length ∧
        0 < npStd (qualifyingConfidences similar) then
      some (sigmoid (max 0
        (|((c : ℝ) - (listMean (qualifyingConfidences similar) : ℝ)) /
          npStd (qualifyingConfidences similar)| - 1.35)))
    else confidenceFromStats c stats

/-- The historical-stats branch of `_calculate_churn_score_anomaly`. -/
noncomputable def churnFromStats (churn : ℚ) (stats : HistoricalStats) :
    Option ℝ :=
  match stats.avg_churn_score with
  | some avg =>
    if 2 / 5 < |churn - avg| then
      some ((min 1 (|churn - avg| / (1 / 2)) : ℚ) : ℝ)
    else none
  | none => none

/-- Embedding of `AnomalyService._calculate_churn_score_anomaly`. -/
noncomputable def churnAnomaly (churn : Option ℚ) (stats : HistoricalStats)
    (similar : List SimilarCall) : Option ℝ :=
  match churn with
  | none => none
  | some c =>
    if 3 ≤ (qualifyingChurnScores similar).length ∧
        0 < npStd (qualifyingChurnScores similar) then
      some (sigmoid (max 0
        (|((c : ℝ) - (listMean (qualifyingChurnScores similar) : ℝ)) /
          npStd (qualifyingChurnScores similar)| - 1.35)))
    else churnFromStats c stats

/-- The historical-stats branch of `_calculate_revenue_score_anomaly`. -/
noncomputable def revenueFromStats (revenue : ℚ) (stats : HistoricalStats) :
    Option ℝ :=
  match stats.avg_revenue_interest_score with
  | some avg =>
    if 2 / 5 < |revenue - avg| then
      some ((min 1 (|revenue - avg| / (1 / 2)) : ℚ) : ℝ)
    else none
  | none => none

/-- Embedding of `AnomalyService._calculate_revenue_score_anomaly`. -/
noncomputable def revenueAnomaly (revenue : Option ℚ) (stats : HistoricalStats)
    (similar : List SimilarCall) : Option ℝ :=
  match revenue with
  | none => none
  | some c =>
    if 3 ≤ (qualifyingRevenueScores similar).length ∧
        0 < npStd (qualifyingRevenueScores similar) then
      some (sigmoid (max 0
        (|((c : ℝ) - (listMean (qualifyingRevenueScores similar) : ℝ)) /
          npStd (qualifyingRevenueScores similar)| - 1.35)))
    else revenueFromStats c stats

end ZScoreFactorDefs

section CompositeScoreDefs

/-- A factor contributes `[(score, weight)]` when computed, nothing when
unavailable. -/
def optFactor : Option ℝ → ℚ → List (ℝ × ℚ)
  | none, _ => []
  | some v, w => [(v, w)]

/-- The `anomaly_factors` list built by
`AnomalyService.calculate_anomaly_score`, with the per-factor weights
0.2, 0.2, 0.1, 0.1, 0.2, 0.2. -/
noncomputable def anomalyFactors (insights : ExtractedInsights)
    (ctx : RAGContext) : List (ℝ × ℚ) :=
  optFactor (ratingAnomaly insights.gym_rating ctx.historical_stats
    ctx.similar_calls) (1 / 5) ++
  optFactor ((sentimentConflict insights.gym_rating insights.sentiment
    ctx.similar_calls).map fun q => (q : ℝ)) (1 / 5) ++
  optFactor ((patternDeviation insights ctx.similar_calls).map
    fun q => (q : ℝ)) (1 / 10) ++
  optFactor (confidenceAnomaly insights.confidence ctx.historical_stats
    ctx.similar_calls) (1 / 10) ++
  optFactor (churnAnomaly insights.churn_score ctx.historical_stats
    ctx.similar_calls) (1 / 5) ++
  optFactor (revenueAnomaly insights.revenue_interest_score
    ctx.historical_stats ctx.similar_calls) (1 / 5)

/-- The tail of `calculate_anomaly_score`: `0.0` for an empty factor
list, otherwise the weighted average clamped into `[0, 1]`. -/
noncomputable def scoreOfFactors (factors : List (ℝ × ℚ)) : ℝ :=
  match factors with
  | [] => 0
  | f :: fs =>
    max 0 (min 1
      (if 0 < ((f :: fs).map Prod.snd).sum then
        ((f :: fs).map fun p => p.1 * (p.2 : ℝ)).sum /
          ((((f :: fs).map Prod.snd).sum : ℚ) : ℝ)
      else 0))

/-- Embedding of `AnomalyService.calculate_anomaly_score`. -/
noncomputable def calculateAnomalyScore (insights : ExtractedInsights)
    (ctx : RAGContext) : ℝ :=
  scoreOfFactors (anomalyFactors insights ctx)

end CompositeScoreDefs

section HistoricalStatsDefs

/-- One tenant insight row as read by
`RAGService._retrieve_historical_stats`. -/
structure InsightRow where
  gym_rating : Option ℚ
  sentiment : Option String
  pain_points : List String
  opportunities : List String
  confidence : Option ℚ
  churn_score : Option ℚ
  revenue_interest_score : Option ℚ
deriving DecidableEq

/-- The SQL filter `Insight.confidence >= 0.3` (a NULL confidence never
qualifies). -/
def qualifies (i : InsightRow) : Bool :=
  match i.confidence with
  | some cf => decide ((3 / 10 : ℚ) ≤ cf)
  | none => false

/-- The tenant rows that survive the confidence filter. -/
def qualifiedRows (rows : List InsightRow) : List InsightRow :=
  rows.filter qualifies

/-- The non-null ratings of the qualifying rows. -/
def statsRatings (rows : List InsightRow) : List ℚ :=
  (qualifiedRows rows).filterMap InsightRow.gym_rating

/-- The non-null confidences of the qualifying rows. -/
def statsConfidences (rows : List InsightRow) : List ℚ :=
  (qualifiedRows rows).filterMap InsightRow.confidence

/-- The non-null churn scores of the qualifying rows. -/
def statsChurnScores (rows : List InsightRow) : List ℚ :=
  (qualifiedRows rows).filterMap InsightRow.churn_score

/-- The non-null revenue scores of the qualifying rows. -/
def statsRevenueScores (rows : List InsightRow) : List ℚ :=
  (qualifiedRows rows).filterMap InsightRow.revenue_interest_score

/-- Embedding of `RAGService._retrieve_historical_stats` (the keys the
claims consume): the empty dictionary when no row qualifies, else means
over the non-null values and `np.std` of the ratings when at least two
are present. -/
noncomputable def retrieveHistoricalStats (rows : List InsightRow) :
    HistoricalStats :=
  if (qualifiedRows rows).isEmpty then emptyStats
  else
    { avg_rating :=
        if 0 < (statsRatings rows).length then
          some (listMean (statsRatings rows)) else none
      std_rating :=
        if 1 < (statsRatings rows).length then
          some (npStd (statsRatings rows)) else none
      avg_confidence :=
        if 0 < (statsConfidences rows).length then
          some (listMean (statsConfidences rows)) else none
      avg_churn_score :=
        if 0 < (statsChurnScores rows).length then
          some (listMean (statsChurnScores rows)) else none
      avg_revenue_interest_score :=
        if 0 < (statsRevenueScores rows).length then
          some (listMean (statsRevenueScores rows)) else none
      total_calls := some (qualifiedRows rows).length }

/-- The sample (Bessel-corrected, ddof 1) standard deviation named by the
C5 claim, written from the spec's words for comparison with the `np.std`
the code actually computes. -/
noncomputable def sampleStd (xs : List ℚ) : ℝ :=
  Real.sqrt ((xs.map fun x => ((x : ℝ) - (listMean xs : ℝ)) ^ 2).sum /
    ((xs.length : ℝ) - 1))

end HistoricalStatsDefs

section ChartCacheDefs

/-- The query parameters of `CacheService.get_chart_calls`. -/
structure ChartQuery where
  gym_id : Option String
  status : Option String
  sentiment : Option String
  pain_point : Option String
  opportunity : Option String
  revenue_interest : Option Bool
  start_date : Option String
  end_date : Option String
  churn_min_score : Option ℚ
  revenue_min_score : Option ℚ
  order_by : Option String
  fields : Option (List String)
  limit : ℕ
deriving DecidableEq

/-- The `is_chart_query` test of `CacheService.get_chart_calls`:
both date bounds present and `limit <= 200`. -/
def isChartQuery (q : ChartQuery) : Bool :=
  q.start_date.isSome && q.end_date.isSome && decide (q.limit ≤ 200)

/-- Lookup in the chart-calls pool. The cache key is modelled as the
parameter record itself (the code hashes the serialized parameter list;
the hash is injective on the queries a pool holds together). -/
def poolLookup {α : Type} (pool : List (ChartQuery × α)) (q : ChartQuery) :
    Option α :=
  (pool.find? fun p => decide (p.1 = q)).map Prod.snd

/-- Embedding of `CacheService.get_chart_calls` as a state transformer on
the chart-calls pool: non-chart queries fetch directly and never touch
the pool; chart queries consult the pool and populate it on a miss. -/
def getChartCalls {α : Type} (fetch : ChartQuery → α) (q : ChartQuery)
    (pool : List (ChartQuery × α)) : α × List (ChartQuery × α) :=
  if isChartQuery q then
    match poolLookup pool q with
    | some v => (v, pool)
    | none => (fetch q, (q, fetch q) :: pool)
  else (fetch q, pool)

end ChartCacheDefs

section LiveCallDefs

/-- One conversation turn of a live call (`schemas.ConversationTurn`);
the speaker type is the string `"USER"` or `"AGENT"` produced by
`CallService.get_speaker_type`, and the speech text is modelled as its
character sequence (Python strings are sequences of code points). -/
structure ConversationTurn where
  speaker_type : String
  speech : List Char
deriving DecidableEq

/-- Python's `str.lower()` on a character sequence. -/
def lowerChars (l : List Char) : List Char := l.map Char.toLower

/-- Python's `str.strip()` on a character sequence: drop leading and
trailing whitespace. -/
def stripChars (l : List Char) : List Char :=
  ((l.dropWhile Char.isWhitespace).reverse.dropWhile Char.isWhitespace).reverse

/-- Embedding of `CallService.check_prefix_similarity` with the default
threshold 0.7: Jaccard similarity of the character sets of the
lowercased, stripped 50-character prefixes. The code computes
`similarity = intersection / union` and tests `similarity >= 0.7`; with
`union > 0` this is exactly `7 * union <= 10 * intersection` over the
rationals (`jaccard_threshold_iff` below records the equivalence). -/
def checkPrefixSimilarity (text1 text2 : List Char) : Bool :=
  if text1.isEmpty || text2.isEmpty then false
  else
    let prefixLength := min 50 (min text1.length text2.length)
    if prefixLength = 0 then false
    else
      let p1 := stripChars (lowerChars (text1.take prefixLength))
      let p2 := stripChars (lowerChars (text2.take prefixLength))
      if p1.isEmpty || p2.isEmpty then false
      else
        let chars1 := p1.toFinset
        let chars2 := p2.toFinset
        let interCard := (chars1 ∩ chars2).card
        let unionCard := (chars1 ∪ chars2).card
        if unionCard = 0 then false
        else decide (7 * unionCard ≤ 10 * interCard)

/-- The conversation update of
`CallService.process_live_call_conversation_turn`: the first turn creates
the conversation; afterwards a turn whose speaker matches the last turn's
speaker and whose speech passes `check_prefix_similarity` replaces the
last turn, and any other turn is appended. -/
def processTurn (conversation : List ConversationTurn)
    (speaker : String) (speech : List Char) : List ConversationTurn :=
  match conversation.getLast? with
  | none => [⟨speaker, speech⟩]
  | some last =>
    if last.speaker_type == speaker && checkPrefixSimilarity last.speech speech then
      conversation.dropLast ++ [⟨speaker, speech⟩]
    else
      conversation ++ [⟨speaker, speech⟩]

end LiveCallDefs

section SimilarityLemmas

lemma vecNorm_nonneg {n : ℕ} (v : Fin n → ℝ) : 0 ≤ vecNorm v :=
  Real.sqrt_nonneg _

lemma sum_sq_nonneg {n : ℕ} (v : Fin n → ℝ) : 0 ≤ ∑ i, v i ^ 2 :=
  Finset.sum_nonneg fun _ _ => sq_nonneg _

lemma vecNorm_mul_self {n : ℕ} (v : Fin n → ℝ) :
    vecNorm v * vecNorm v = ∑ i, v i ^ 2 :=
  Real.mul_self_sqrt (sum_sq_nonneg v)

lemma dotProduct_le_norm_mul_norm {n : ℕ} (v w : Fin n → ℝ) :
    dotProduct v w ≤ vecNorm v * vecNorm w :=
  Real.sum_mul_le_sqrt_mul_sqrt _ v w

lemma dotProduct_self {n : ℕ} (v : Fin n → ℝ) :
    dotProduct v v = ∑ i, v i ^ 2 := by
  unfold dotProduct
  exact Finset.sum_congr rfl fun i _ => (sq (v i)).symm

lemma cosineDistance_nonneg {n : ℕ} (v w : Fin n → ℝ) :
    0 ≤ cosineDistance v w := by
  unfold cosineDistance
  split_ifs with h
  · norm_num
  · push_neg at h
    have hv : 0 < vecNorm v := lt_of_le_of_ne (vecNorm_nonneg v) (Ne.symm h.1)
    have hw : 0 < vecNorm w := lt_of_le_of_ne (vecNorm_nonneg w) (Ne.symm h.2)
    have hprod : 0 < vecNorm v * vecNorm w := mul_pos hv hw
    have hle : dotProduct v w / (vecNorm v * vecNorm w) ≤ 1 :=
      (div_le_one hprod).mpr (dotProduct_le_norm_mul_norm v w)
    linarith

lemma cosineDistance_self_of_norm_ne_zero {n : ℕ} (v : Fin n → ℝ)
    (h : vecNorm v ≠ 0) : cosineDistance v v = 0 := by
  unfold cosineDistance
  rw [if_neg (by simp [h])]
  rw [vecNorm_mul_self, ← dotProduct_self, div_self, sub_self]
  intro h0
  exact h (by rw [vecNorm, ← dotProduct_self, h0, Real.sqrt_zero])

end SimilarityLemmas

/-- The threshold comparison of `check_prefix_similarity` as written in the
source (`intersection / union >= 0.7`) agrees with the cross-multiplied
form used in `checkPrefixSimilarity` whenever the union is non-empty. -/
lemma jaccard_threshold_iff (i u : ℕ) (hu : 0 < u) :
    7 * u ≤ 10 * i ↔ (7 / 10 : ℚ) ≤ (i : ℚ) / (u : ℚ) := by
  have hu2 : (0 : ℚ) < (u : ℚ) := by exact_mod_cast hu
  rw [div_le_div_iff₀ (by norm_num) hu2]
  constructor
  · intro h
    have h2 : ((7 * u : ℕ) : ℚ) ≤ ((10 * i : ℕ) : ℚ) := by exact_mod_cast h
    push_cast at h2
    linarith
  · intro h
    have h2 : ((7 * u : ℕ) : ℚ) ≤ ((10 * i : ℕ) : ℚ) := by push_cast; linarith
    exact_mod_cast h2

lemma isChartQuery_eq_true_iff (q : ChartQuery) :
    isChartQuery q = true ↔
      q.start_date ≠ none ∧ q.end_date ≠ none ∧ q.limit ≤ 200 := by
  simp [isChartQuery, Option.isSome_iff_ne_none, and_assoc]

lemma expectedSentiment_nine : expectedSentiment 9 = "positive" := by
  simp only [expectedSentiment]
  rw [if_pos (by norm_num : (8 : ℚ) ≤ 9)]

lemma expectedSentiment_two : expectedSentiment 2 = "negative" := by
  simp only [expectedSentiment]
  rw [if_neg (by norm_num : ¬(8 : ℚ) ≤ 2), if_pos (by norm_num : (2 : ℚ) ≤ 4)]

/-- C2 counterexample: the claim asserts similarity `1.0` for *every* pair of
identical vectors, but for the identical pair of all-zero vectors the code
takes the zero-norm branch (distance `2.0`), so the derived similarity is
`0`, not `1`. -/
theorem identical_zero_vectors_similarity_zero :
    similarityOfDistance
      (cosineDistance (fun _ : Fin 3 => (0 : ℝ)) (fun _ : Fin 3 => (0 : ℝ))) = 0 ∧
    (0 : ℝ) ≠ 1 := by
  constructor
  · have hz : vecNorm (fun _ : Fin 3 => (0 : ℝ)) = 0 := by
      simp [vecNorm]
    rw [cosineDistance, if_pos (Or.inl hz)]
    simp [similarityOfDistance]
  · norm_num

/-- C2 (amended): for every pair of vectors the derived similarity
`max(0, 1 - distance/2)` over the computed cosine distance lies in `[0,1]`
and is monotonically non-increasing in the distance, and for every pair of
identical vectors *of nonzero norm* the similarity equals exactly `1.0`
(identical zero-norm vectors instead give distance `2.0` and similarity `0`). -/
theorem similarity_range_monotone_identical {n : ℕ} (v w : Fin n → ℝ) :
    0 ≤ similarityOfDistance (cosineDistance v w) ∧
    similarityOfDistance (cosineDistance v w) ≤ 1 ∧
    (∀ d₁ d₂ : ℝ, d₁ ≤ d₂ → similarityOfDistance d₂ ≤ similarityOfDistance d₁) ∧
    (vecNorm v ≠ 0 → similarityOfDistance (cosineDistance v v) = 1) := by
  refine ⟨le_max_left _ _, ?_, ?_, ?_⟩
  · have hd := cosineDistance_nonneg v w
    unfold similarityOfDistance
    refine max_le zero_le_one (by linarith)
  · intro d₁ d₂ h
    unfold similarityOfDistance
    exact max_le_max le_rfl (by linarith)
  · intro h
    rw [cosineDistance_self_of_norm_ne_zero v h]
    unfold similarityOfDistance
    norm_num

/-- Witness for C2 (amended) at the concrete identical pair `(1, 1)` of
nonzero norm: the similarity is exactly `1`. -/
theorem similarity_range_monotone_identical_witness :
    vecNorm (fun _ : Fin 2 => (1 : ℝ)) ≠ 0 ∧
    similarityOfDistance
      (cosineDistance (fun _ : Fin 2 => (1 : ℝ)) (fun _ : Fin 2 => (1 : ℝ))) = 1 := by
  have hv : vecNorm (fun _ : Fin 2 => (1 : ℝ)) ≠ 0 := by
    have : (0 : ℝ) < vecNorm (fun _ : Fin 2 => (1 : ℝ)) := by
      unfold vecNorm
      refine Real.sqrt_pos.mpr ?_
      norm_num [Fin.sum_univ_two]
    exact ne_of_gt this
  exact ⟨hv,
    (similarity_range_monotone_identical (fun _ : Fin 2 => (1 : ℝ))
      (fun _ : Fin 2 => (1 : ℝ))).2.2.2 hv⟩

/-- C10: whenever at least one input vector has zero norm, the
cosine-distance primitive returns exactly `2.0` (the division is never
executed), and the derived similarity `max(0, 1 - distance/2)` is `0.0` —
including for the pair of two identical all-zero vectors. -/
theorem zero_norm_distance_two_similarity_zero {n : ℕ} (v w : Fin n → ℝ)
    (h : vecNorm v = 0 ∨ vecNorm w = 0) :
    cosineDistance v w = 2 ∧ similarityOfDistance (cosineDistance v w) = 0 := by
  have hd : cosineDistance v w = 2 := by rw [cosineDistance, if_pos h]
  refine ⟨hd, ?_⟩
  rw [hd]
  unfold similarityOfDistance
  norm_num

/-- Witness for C10 at the identical all-zero pair in dimension 1. -/
theorem zero_norm_distance_two_similarity_zero_witness :
    cosineDistance (fun _ : Fin 1 => (0 : ℝ)) (fun _ : Fin 1 => (0 : ℝ)) = 2 ∧
    similarityOfDistance
      (cosineDistance (fun _ : Fin 1 => (0 : ℝ)) (fun _ : Fin 1 => (0 : ℝ))) = 0 :=
  zero_norm_distance_two_similarity_zero _ _ (Or.inl (by simp [vecNorm]))

/-- C3 counterexample: with a rating of 9 and sentiment "negative"
(a conflict), and a single neighbor whose conflict pattern is different
(rating 2, sentiment "positive"), no neighbor shows the *same* conflict
(rate `0 < 20%`), so the claim as stated demands `0.7`; the code counts the
neighbor's *different* conflict all the same, sees a 100% conflict rate,
and returns `0.2`. -/
theorem sentimentConflict_same_conflict_counterexample :
    sentimentConflict (some 9) (some "negative")
      [⟨some 2, some "positive", none, [], [], none, none⟩] = some (1 / 5) ∧
    ((([⟨some 2, some "positive", none, [], [], none, none⟩] :
        List SimilarCall).filter (showsSameConflict 9 "negative")).length : ℚ) /
      (([⟨some 2, some "positive", none, [], [], none, none⟩] :
        List SimilarCall).length : ℚ) < 1 / 5 ∧
    (1 / 5 : ℚ) ≠ 7 / 10 := by
  refine ⟨?_, ?_, by norm_num⟩
  · have hc : neighborHasConflict
        ⟨some 2, some "positive", none, [], [], none, none⟩ = true := by
      simp only [neighborHasConflict, hasRatingSentimentConflict]
      rw [if_neg (by norm_num : ¬(8 : ℚ) ≤ 2), if_pos (by norm_num : (2 : ℚ) ≤ 4)]
      decide
    have hcr : conflictRate
        [⟨some 2, some "positive", none, [], [], none, none⟩] = 1 := by
      simp only [conflictRate, List.filter, hc]
      norm_num
    simp only [sentimentConflict]
    rw [if_pos (show "negative" ≠ expectedSentiment (9 : ℚ) by
        rw [expectedSentiment_nine]; decide),
      if_neg (by rw [hcr]; norm_num), if_neg (by rw [hcr]; norm_num)]
  · have hs : showsSameConflict 9 "negative"
        ⟨some 2, some "positive", none, [], [], none, none⟩ = false := by
      simp only [showsSameConflict, expectedSentiment_two, expectedSentiment_nine]
      decide
    simp only [List.filter, hs]
    norm_num

/-- C3 (amended): when rating and sentiment are present and the actual
sentiment differs from the expected one, the factor is `0.7` when fewer
than 20% of the neighbors show *any* rating-sentiment conflict (by the
code's neighbor predicate, under which a mid-range rating conflicts only
with sentiments other than neutral/positive), `0.4` when fewer than 50%
do, `0.2` when 50% or more do, and exactly `0.5` when there are zero
neighbors; when the actual sentiment matches the expected one, the factor
is `0.0`. -/
theorem sentimentConflict_bands (r : ℚ) (s : String) (similar : List SimilarCall) :
    (s ≠ expectedSentiment r →
      (similar = [] → sentimentConflict (some r) (some s) similar = some (1 / 2)) ∧
      (similar ≠ [] →
        (conflictRate similar < 1 / 5 →
          sentimentConflict (some r) (some s) similar = some (7 / 10)) ∧
        (1 / 5 ≤ conflictRate similar → conflictRate similar < 1 / 2 →
          sentimentConflict (some r) (some s) similar = some (2 / 5)) ∧
        (1 / 2 ≤ conflictRate similar →
          sentimentConflict (some r) (some s) similar = some (1 / 5)))) ∧
    (s = expectedSentiment r → sentimentConflict (some r) (some s) similar = some 0) := by
  constructor
  · intro hne
    constructor
    · intro hsim
      subst hsim
      simp [sentimentConflict, hne]
    · intro hsim
      obtain ⟨c, rest, rfl⟩ : ∃ c rest, similar = c :: rest := by
        cases similar with
        | nil => exact absurd rfl hsim
        | cons c rest => exact ⟨c, rest, rfl⟩
      refine ⟨fun hlt => ?_, fun hge hlt => ?_, fun hge => ?_⟩
      · simp only [sentimentConflict]
        rw [if_pos hne, if_pos hlt]
      · simp only [sentimentConflict]
        rw [if_pos hne, if_neg (not_lt.mpr hge), if_pos hlt]
      · simp only [sentimentConflict]
        rw [if_pos hne,
          if_neg (not_lt.mpr (le_trans (by norm_num) hge)),
          if_neg (not_lt.mpr hge)]
  · intro heq
    simp [sentimentConflict, heq]

/-- Witness for C3 (amended): rating 9, sentiment "negative", zero
neighbors gives exactly `0.5`. -/
theorem sentimentConflict_bands_witness :
    ("negative" ≠ expectedSentiment 9) ∧
    sentimentConflict (some 9) (some "negative") [] = some (1 / 2) :=
  ⟨by rw [expectedSentiment_nine]; decide,
    ((sentimentConflict_bands 9 "negative" []).1
      (by rw [expectedSentiment_nine]; decide)).1 rfl⟩

/-- C9: the pattern-deviation factor requires at least 2 similar records
(otherwise it is unavailable, not zero); whenever its sentiment sub-signal
is computed, its value is 1 minus the frequency of the extracted sentiment
among the valid neighbor sentiments; and when at least 2 similar records
exist the factor is the average of whichever of the three sub-signals
(sentiment, pain points, opportunities) were computed, unavailable if none
were. -/
theorem patternDeviation_two_records_and_average
    (insights : ExtractedInsights) (similar : List SimilarCall) :
    (similar.length < 2 → patternDeviation insights similar = none) ∧
    (∀ s q, sentimentSubsignal (some s) similar = some q →
      q = 1 - ((validSentiments similar).count s : ℚ) /
        ((validSentiments similar).length : ℚ)) ∧
    (2 ≤ similar.length →
      ((sentimentSubsignal insights.sentiment similar = none ∧
        painSubsignal insights.pain_points similar = none ∧
        oppSubsignal insights.opportunities similar = none) →
        patternDeviation insights similar = none) ∧
      (∀ d ds,
        (sentimentSubsignal insights.sentiment similar).toList ++
          (painSubsignal insights.pain_points similar).toList ++
          (oppSubsignal insights.opportunities similar).toList = d :: ds →
        patternDeviation insights similar =
          some ((d :: ds).sum / ((d :: ds).length : ℚ)))) := by
  refine ⟨?_, ?_, ?_⟩
  · intro h
    simp [patternDeviation, h]
  · intro s q hq
    simp only [sentimentSubsignal] at hq
    split_ifs at hq
    exact (Option.some_inj.mp hq).symm
  · intro h2
    have hnot : ¬similar.length < 2 := not_lt.mpr h2
    constructor
    · rintro ⟨ha, hb, hc⟩
      simp [patternDeviation, hnot, ha, hb, hc]
    · intro d ds hds
      simp only [patternDeviation, if_neg hnot, hds]

/-- Witness for C9 at a single-record list: fewer than 2 similar records
makes the factor unavailable. -/
theorem patternDeviation_two_records_and_average_witness :
    (([⟨some 2, some "neutral", none, [], [], none, none⟩] :
        List SimilarCall).length < 2) ∧
    patternDeviation ⟨none, some "positive", none, none, none, [], []⟩
      [⟨some 2, some "neutral", none, [], [], none, none⟩] = none :=
  ⟨by decide,
    (patternDeviation_two_records_and_average
      ⟨none, some "positive", none, none, none, [], []⟩
      [⟨some 2, some "neutral", none, [], [], none, none⟩]).1 (by decide)⟩

/-- C1: for every extracted-insights input and retrieval context,
`calculate_anomaly_score` returns a value in `[0, 1]` — the weighted
average of the available factor scores clamped into `[0, 1]` after
averaging, or `0.0` when no factor is available — for arbitrary
combinations of present/absent factors; totality of the embedding
reflects that the function never throws. -/
theorem anomaly_score_in_unit_interval (insights : ExtractedInsights)
    (ctx : RAGContext) :
    0 ≤ calculateAnomalyScore insights ctx ∧
    calculateAnomalyScore insights ctx ≤ 1 := by
  unfold calculateAnomalyScore
  cases h : anomalyFactors insights ctx with
  | nil => simp [scoreOfFactors]
  | cons f fs =>
    simp only [scoreOfFactors]
    exact ⟨le_max_left _ _, max_le zero_le_one (min_le_left _ _)⟩

/-- C8: when every input factor is unavailable (no rating, no sentiment,
no confidence/churn/revenue values and no similar-record neighbors, so no
usable baseline either), the factor list is empty — the weighted-average
step is skipped — and `calculate_anomaly_score` returns exactly `0.0`. -/
theorem anomaly_score_zero_when_no_factors (insights : ExtractedInsights)
    (stats : HistoricalStats)
    (h1 : insights.gym_rating = none) (h2 : insights.sentiment = none)
    (h3 : insights.confidence = none) (h4 : insights.churn_score = none)
    (h5 : insights.revenue_interest_score = none) :
    anomalyFactors insights ⟨[], stats⟩ = [] ∧
    calculateAnomalyScore insights ⟨[], stats⟩ = 0 := by
  have hfac : anomalyFactors insights ⟨[], stats⟩ = [] := by
    simp [anomalyFactors, h1, h2, h3, h4, h5, ratingAnomaly, sentimentConflict,
      patternDeviation, confidenceAnomaly, churnAnomaly, revenueAnomaly,
      optFactor]
  refine ⟨hfac, ?_⟩
  rw [calculateAnomalyScore, hfac]
  simp [scoreOfFactors]

/-- Witness for C8 at fully-absent concrete inputs. -/
theorem anomaly_score_zero_when_no_factors_witness :
    (⟨none, none, none, none, none, [], []⟩ : ExtractedInsights).gym_rating
      = none ∧
    calculateAnomalyScore ⟨none, none, none, none, none, [], []⟩
      ⟨[], emptyStats⟩ = 0 :=
  ⟨rfl,
    (anomaly_score_zero_when_no_factors _ emptyStats rfl rfl rfl rfl rfl).2⟩

/-- C4 counterexample: the rating factor has no absolute-deviation
fallback. With rating 10, no qualifying neighbors, an aggregate mean of 5
and no aggregate standard deviation, the code returns `None` (factor
unavailable), not the claimed linearly scaled capped value. -/
theorem ratingAnomaly_no_absolute_fallback :
    ratingAnomaly (some 10) ⟨some 5, none, none, none, none, none⟩ [] = none ∧
    (none : Option ℝ) ≠
      some ((min 1 (|(10 : ℚ) - 5| / (1 / 2)) : ℚ) : ℝ) := by
  constructor
  · simp [ratingAnomaly, qualifyingRatings, ratingFromStats]
  · simp

/-- C4 (amended): the similar-records sample is used only when it has at
least 3 (ratings/churn/revenue) or at least 2 (confidence) qualifying
values, with mean and deviation always paired from the same sample; when
the sample is too small, the confidence, churn and revenue factors fall
back to an absolute-deviation threshold against the tenant mean
(deviation > 0.4 gives `min(1, deviation / 0.5)`, otherwise the factor is
unavailable), while the rating factor falls back to the tenant-wide
mean/std Z-score pair and is unavailable when the aggregate standard
deviation is missing — it has no absolute-deviation fallback. -/
theorem zscore_source_selection_and_fallback (r c ch rv m : ℚ)
    (stats : HistoricalStats) (similar : List SimilarCall) :
    ((qualifyingRatings similar).length < 3 →
      ratingAnomaly (some r) stats similar = ratingFromStats r stats) ∧
    ((qualifyingRatings similar).length < 3 → stats.std_rating = none →
      ratingAnomaly (some r) stats similar = none) ∧
    (3 ≤ (qualifyingRatings similar).length →
      0 < npStd (qualifyingRatings similar) →
      ratingAnomaly (some r) stats similar =
        some (sigmoid (max 0
          (|((r : ℝ) - (listMean (qualifyingRatings similar) : ℝ)) /
            npStd (qualifyingRatings similar)| - 1.35)))) ∧
    ((qualifyingConfidences similar).length < 2 →
      stats.avg_confidence = some m →
      confidenceAnomaly (some c) stats similar =
        (if 2 / 5 < |c - m| then
          some ((min 1 (|c - m| / (1 / 2)) : ℚ) : ℝ) else none)) ∧
    ((qualifyingChurnScores similar).length < 3 →
      stats.avg_churn_score = some m →
      churnAnomaly (some ch) stats similar =
        (if 2 / 5 < |ch - m| then
          some ((min 1 (|ch - m| / (1 / 2)) : ℚ) : ℝ) else none)) ∧
    ((qualifyingRevenueScores similar).length < 3 →
      stats.avg_revenue_interest_score = some m →
      revenueAnomaly (some rv) stats similar =
        (if 2 / 5 < |rv - m| then
          some ((min 1 (|rv - m| / (1 / 2)) : ℚ) : ℝ) else none)) := by
  refine ⟨?_, ?_, ?_, ?_, ?_, ?_⟩
  · intro hlen
    simp only [ratingAnomaly]
    rw [if_neg fun hc => absurd hc.1 (by omega)]
  · intro hlen hstd
    simp only [ratingAnomaly]
    rw [if_neg fun hc => absurd hc.1 (by omega)]
    cases havg : stats.avg_rating <;> simp [ratingFromStats, hstd, havg]
  · intro hlen hstd
    simp only [ratingAnomaly]
    rw [if_pos ⟨hlen, hstd⟩]
  · intro hlen hm
    simp only [confidenceAnomaly]
    rw [if_neg fun hc => absurd hc.1 (by omega)]
    simp [confidenceFromStats, hm]
  · intro hlen hm
    simp only [churnAnomaly]
    rw [if_neg fun hc => absurd hc.1 (by omega)]
    simp [churnFromStats, hm]
  · intro hlen hm
    simp only [revenueAnomaly]
    rw [if_neg fun hc => absurd hc.1 (by omega)]
    simp [revenueFromStats, hm]

/-- Witness for C4 (amended): the confidence fallback at confidence 0.9
against a tenant mean of 0.3 with no qualifying neighbors. -/
theorem zscore_source_selection_and_fallback_witness :
    ((qualifyingConfidences ([] : List SimilarCall)).length < 2) ∧
    (⟨none, none, some (3 / 10), none, none, none⟩ :
      HistoricalStats).avg_confidence = some (3 / 10) ∧
    confidenceAnomaly (some (9 / 10))
      ⟨none, none, some (3 / 10), none, none, none⟩ [] =
      (if 2 / 5 < |(9 / 10 : ℚ) - 3 / 10| then
        some ((min 1 (|(9 / 10 : ℚ) - 3 / 10| / (1 / 2)) : ℚ) : ℝ) else none) :=
  ⟨by simp [qualifyingConfidences], rfl,
    (zscore_source_selection_and_fallback 0 (9 / 10) 0 0 (3 / 10)
      ⟨none, none, some (3 / 10), none, none, none⟩ []).2.2.2.1
      (by simp [qualifyingConfidences]) rfl⟩

/-- C5 counterexample: the aggregate-stats retrieval computes `np.std`,
the population (ddof 0) standard deviation, not the sample one the claim
names. On the spec's own example ratings `[8, 8, 9, 7, 8]` (all with
confidence 1) the stored value is `sqrt(2/5) ≈ 0.632` — matching the
spec's `std ≈ 0.63` — while the sample standard deviation would be
`sqrt(1/2) ≈ 0.707`. -/
theorem std_is_population_not_sample :
    (retrieveHistoricalStats
      [⟨some 8, none, [], [], some 1, none, none⟩,
       ⟨some 8, none, [], [], some 1, none, none⟩,
       ⟨some 9, none, [], [], some 1, none, none⟩,
       ⟨some 7, none, [], [], some 1, none, none⟩,
       ⟨some 8, none, [], [], some 1, none, none⟩]).std_rating =
      some (npStd [8, 8, 9, 7, 8]) ∧
    npStd [8, 8, 9, 7, 8] = Real.sqrt (2 / 5) ∧
    sampleStd [8, 8, 9, 7, 8] = Real.sqrt (1 / 2) ∧
    npStd [8, 8, 9, 7, 8] ≠ sampleStd [8, 8, 9, 7, 8] := by
  have hq : ∀ g : Option ℚ,
      qualifies ⟨g, none, [], [], some 1, none, none⟩ = true := by
    intro g
    simp only [qualifies, decide_eq_true_eq]
    norm_num
  have hqr : qualifiedRows
      [⟨some 8, none, [], [], some 1, none, none⟩,
       ⟨some 8, none, [], [], some 1, none, none⟩,
       ⟨some 9, none, [], [], some 1, none, none⟩,
       ⟨some 7, none, [], [], some 1, none, none⟩,
       ⟨some 8, none, [], [], some 1, none, none⟩] =
      [⟨some 8, none, [], [], some 1, none, none⟩,
       ⟨some 8, none, [], [], some 1, none, none⟩,
       ⟨some 9, none, [], [], some 1, none, none⟩,
       ⟨some 7, none, [], [], some 1, none, none⟩,
       ⟨some 8, none, [], [], some 1, none, none⟩] := by
    simp [qualifiedRows, List.filter, hq]
  have hsr : statsRatings
      [⟨some 8, none, [], [], some 1, none, none⟩,
       ⟨some 8, none, [], [], some 1, none, none⟩,
       ⟨some 9, none, [], [], some 1, none, none⟩,
       ⟨some 7, none, [], [], some 1, none, none⟩,
       ⟨some 8, none, [], [], some 1, none, none⟩] = [8, 8, 9, 7, 8] := by
    simp [statsRatings, hqr, List.filterMap]
  have hmean : listMean [8, 8, 9, 7, 8] = 8 := by
    norm_num [listMean]
  have hnp : npStd [8, 8, 9, 7, 8] = Real.sqrt (2 / 5) := by
    rw [npStd, hmean]
    norm_num
  have hsam : sampleStd [8, 8, 9, 7, 8] = Real.sqrt (1 / 2) := by
    rw [sampleStd, hmean]
    norm_num
  have hne : Real.sqrt (2 / 5) ≠ Real.sqrt (1 / 2) := by
    intro heq
    have h25 := (Real.sqrt_inj (by norm_num) (by norm_num)).mp heq
    norm_num at h25
  refine ⟨?_, hnp, hsam, by rw [hnp, hsam]; exact hne⟩
  have hfalse : (qualifiedRows
      [⟨some 8, none, [], [], some 1, none, none⟩,
       ⟨some 8, none, [], [], some 1, none, none⟩,
       ⟨some 9, none, [], [], some 1, none, none⟩,
       ⟨some 7, none, [], [], some 1, none, none⟩,
       ⟨some 8, none, [], [], some 1, none, none⟩]).isEmpty = false := by
    rw [hqr]
    rfl
  rw [retrieveHistoricalStats, if_neg (by rw [hfalse]; simp)]
  rw [hsr]
  norm_num

/-- C5 (amended): the aggregate-stats retrieval, restricted to tenant
records with confidence at least 0.3, returns the empty stats object
(never an error) when zero records qualify; otherwise the rating mean is
taken over only the non-null ratings of qualifying rows, and the stored
standard deviation `s` is the population one: `s ≥ 0` and
`s² · n = Σ (x − mean)²` over the `n` non-null ratings (a sample standard
deviation would satisfy `s² · (n − 1) = Σ (x − mean)²` instead); with at
most one rating no deviation is stored. -/
theorem historical_stats_properties (rows : List InsightRow) :
    (qualifiedRows rows = [] → retrieveHistoricalStats rows = emptyStats) ∧
    (qualifiedRows rows ≠ [] →
      (0 < (statsRatings rows).length →
        (retrieveHistoricalStats rows).avg_rating =
          some (listMean (statsRatings rows))) ∧
      ((statsRatings rows).length ≤ 1 →
        (retrieveHistoricalStats rows).std_rating = none) ∧
      (∀ s, (retrieveHistoricalStats rows).std_rating = some s →
        0 ≤ s ∧
        s ^ 2 * ((statsRatings rows).length : ℝ) =
          ((statsRatings rows).map fun x =>
            ((x : ℝ) - (listMean (statsRatings rows) : ℝ)) ^ 2).sum)) := by
  constructor
  · intro h
    rw [retrieveHistoricalStats, if_pos (by simp [h])]
  · intro hne
    have hfalse : (qualifiedRows rows).isEmpty = false := by
      cases hql : qualifiedRows rows with
      | nil => exact absurd hql hne
      | cons a l => rfl
    have havg : (retrieveHistoricalStats rows).avg_rating =
        (if 0 < (statsRatings rows).length then
          some (listMean (statsRatings rows)) else none) := by
      rw [retrieveHistoricalStats, if_neg (by rw [hfalse]; simp)]
    have hstd : (retrieveHistoricalStats rows).std_rating =
        (if 1 < (statsRatings rows).length then
          some (npStd (statsRatings rows)) else none) := by
      rw [retrieveHistoricalStats, if_neg (by rw [hfalse]; simp)]
    refine ⟨?_, ?_, ?_⟩
    · intro hlen
      rw [havg, if_pos hlen]
    · intro hlen
      rw [hstd, if_neg (by omega)]
    · intro s hs
      rw [hstd] at hs
      by_cases hlen : 1 < (statsRatings rows).length
      · rw [if_pos hlen] at hs
        have hseq : s = npStd (statsRatings rows) :=
          (Option.some_inj.mp hs).symm
        subst hseq
        refine ⟨Real.sqrt_nonneg _, ?_⟩
        have hlpos : (0 : ℝ) < ((statsRatings rows).length : ℝ) := by
          have h0 : 0 < (statsRatings rows).length := by omega
          exact_mod_cast h0
        have hsum : 0 ≤ ((statsRatings rows).map fun x =>
            ((x : ℝ) - (listMean (statsRatings rows) : ℝ)) ^ 2).sum := by
          refine List.sum_nonneg ?_
          intro y hy
          rw [List.mem_map] at hy
          obtain ⟨x, _, rfl⟩ := hy
          exact sq_nonneg _
        rw [npStd, Real.sq_sqrt (div_nonneg hsum hlpos.le),
          div_mul_cancel₀ _ hlpos.ne']
      · rw [if_neg hlen] at hs
        exact absurd hs (by simp)

/-- Witness for C5 (amended): two qualifying rows with ratings 8 and 6
give a stored mean over exactly those ratings. -/
theorem historical_stats_properties_witness :
    qualifiedRows
      [⟨some 8, none, [], [], some 1, none, none⟩,
       ⟨some 6, none, [], [], some 1, none, none⟩] ≠ [] ∧
    0 < (statsRatings
      [⟨some 8, none, [], [], some 1, none, none⟩,
       ⟨some 6, none, [], [], some 1, none, none⟩]).length ∧
    (retrieveHistoricalStats
      [⟨some 8, none, [], [], some 1, none, none⟩,
       ⟨some 6, none, [], [], some 1, none, none⟩]).avg_rating =
      some (listMean (statsRatings
        [⟨some 8, none, [], [], some 1, none, none⟩,
         ⟨some 6, none, [], [], some 1, none, none⟩])) := by
  have hq : ∀ g : Option ℚ,
      qualifies ⟨g, none, [], [], some 1, none, none⟩ = true := by
    intro g
    simp only [qualifies, decide_eq_true_eq]
    norm_num
  have h1 : qualifiedRows
      [(⟨some 8, none, [], [], some 1, none, none⟩ : InsightRow),
       ⟨some 6, none, [], [], some 1, none, none⟩] ≠ [] := by
    simp [qualifiedRows, List.filter, hq]
  have h2 : 0 < (statsRatings
      [(⟨some 8, none, [], [], some 1, none, none⟩ : InsightRow),
       ⟨some 6, none, [], [], some 1, none, none⟩]).length := by
    simp [statsRatings, qualifiedRows, List.filter, hq, List.filterMap]
  exact ⟨h1, h2, ((historical_stats_properties
    [⟨some 8, none, [], [], some 1, none, none⟩,
     ⟨some 6, none, [], [], some 1, none, none⟩]).2 h1).1 h2⟩

/-- C7: a chart-calls query with `start_date = None`, or `end_date = None`,
or a limit above 200 never inserts into the chart-calls cache pool and
returns the directly computed result; conversely the pool can only change
on a query with both date bounds and `limit ≤ 200`. -/
theorem chart_cache_gating {α : Type} (fetch : ChartQuery → α) (q : ChartQuery)
    (pool : List (ChartQuery × α)) :
    ((q.start_date = none ∨ q.end_date = none ∨ 200 < q.limit) →
      getChartCalls fetch q pool = (fetch q, pool)) ∧
    ((getChartCalls fetch q pool).2 ≠ pool →
      q.start_date ≠ none ∧ q.end_date ≠ none ∧ q.limit ≤ 200) := by
  constructor
  · intro h
    have hfalse : ¬isChartQuery q = true := by
      rw [isChartQuery_eq_true_iff]
      rintro ⟨hs, he, hl⟩
      rcases h with h | h | h
      · exact hs h
      · exact he h
      · omega
    simp [getChartCalls, hfalse]
  · intro hne
    by_cases hic : isChartQuery q = true
    · exact (isChartQuery_eq_true_iff q).mp hic
    · exact absurd (show (getChartCalls fetch q pool).2 = pool by
        simp [getChartCalls, hic]) hne

/-- Witness for C7: an open-ended query (`start_date = None`, limit 100)
on an empty pool fetches directly and leaves the pool empty. -/
theorem chart_cache_gating_witness :
    ((⟨none, none, none, none, none, none, none, none, none, none, none,
        none, 100⟩ : ChartQuery).start_date = none ∨
      (⟨none, none, none, none, none, none, none, none, none, none, none,
        none, 100⟩ : ChartQuery).end_date = none ∨
      200 < (⟨none, none, none, none, none, none, none, none, none, none,
        none, none, 100⟩ : ChartQuery).limit) ∧
    getChartCalls (fun _ => (0 : ℕ))
      ⟨none, none, none, none, none, none, none, none, none, none, none,
        none, 100⟩ [] = ((0 : ℕ), ([] : List (ChartQuery × ℕ))) :=
  ⟨Or.inl rfl,
    (chart_cache_gating (fun _ => (0 : ℕ))
      ⟨none, none, none, none, none, none, none, none, none, none, none,
        none, 100⟩ []).1 (Or.inl rfl)⟩

/-- C6: in a live-call conversation with at least one prior turn, an
incoming turn whose speaker matches the previous turn's speaker and whose
text passes the 70% prefix character-overlap test replaces the last turn
with the new text; an incoming turn with a different speaker is always
appended as a new turn, regardless of text similarity. In particular,
consecutive USER turns "I think the equipm" then
"I think the equipment is old" collapse into one turn equal to the second
string. -/
theorem live_turn_merge_rule (conversation : List ConversationTurn)
    (last : ConversationTurn) (speaker : String) (speech : List Char)
    (h : conversation.getLast? = some last) :
    (last.speaker_type = speaker →
      checkPrefixSimilarity last.speech speech = true →
      processTurn conversation speaker speech =
        conversation.dropLast ++ [⟨speaker, speech⟩]) ∧
    (last.speaker_type ≠ speaker →
      processTurn conversation speaker speech =
        conversation ++ [⟨speaker, speech⟩]) ∧
    processTurn [⟨"USER", "I think the equipm".toList⟩] "USER"
      "I think the equipment is old".toList =
      [⟨"USER", "I think the equipment is old".toList⟩] := by
  refine ⟨?_, ?_, by decide⟩
  · intro hsp hsim
    have hcond : (last.speaker_type == speaker &&
        checkPrefixSimilarity last.speech speech) = true := by
      rw [hsp, hsim]
      simp
    simp only [processTurn, h, hcond]
    simp
  · intro hsp
    have hcond : (last.speaker_type == speaker &&
        checkPrefixSimilarity last.speech speech) = false := by
      rw [beq_eq_false_iff_ne.mpr hsp, Bool.false_and]
    simp only [processTurn, h, hcond]
    simp

/-- Witness for C6: the spec's concrete continuation example, applying the
merge rule to the single-turn conversation. -/
theorem live_turn_merge_rule_witness :
    ([(⟨"USER", "I think the equipm".toList⟩ : ConversationTurn)].getLast? =
      some ⟨"USER", "I think the equipm".toList⟩) ∧
    checkPrefixSimilarity "I think the equipm".toList
      "I think the equipment is old".toList = true ∧
    processTurn [⟨"USER", "I think the equipm".toList⟩] "USER"
      "I think the equipment is old".toList =
      [(⟨"USER", "I think the equipm".toList⟩ : ConversationTurn)].dropLast ++
        [⟨"USER", "I think the equipment is old".toList⟩] :=
  ⟨rfl, by decide,
    (live_turn_merge_rule [⟨"USER", "I think the equipm".toList⟩]
      ⟨"USER", "I think the equipm".toList⟩ "USER"
      "I think the equipment is old".toList rfl).1 rfl (by decide)⟩

end VoiceWise
